import Mathlib

/-!
Shallow embedding of `src/main.py` (a manual property-scraping assistant:
reveal-click heuristic, HTML compression, quota-aware LLM invocation and
CSV persistence), together with theorems checking the specification's
claims against it.

External effects (the filesystem, the browser, the generative model, the
HTML and JSON parsers, the clock) are passed in explicitly: the CSV file
is an `Option (List Row)` (`none` = the file does not exist), the model is
a function from attempt number to `Except`, parsers are function
parameters, and permission/lock failures are boolean parameters.
-/

/-- Python values produced by `json.loads` (src/main.py line 216). -/
inductive Json where
  | null : Json
  | bool (b : Bool) : Json
  | num (n : Int) : Json
  | str (s : String) : Json
  | arr (elems : List Json) : Json
  | obj (fields : List (String × Json)) : Json

/-- Python exceptions relevant to `save_to_csv` / `init_csv`. -/
inductive PyErr where
  | attributeError : PyErr
  | permissionError : PyErr
deriving DecidableEq

/-- A CSV row as built in the source: the list of Python values handed to
`csv.writer.writerow` (serialisation to the byte-level CSV syntax is the
`csv` library's job and is outside the embedding). -/
abbrev Row := List Json

/-- The backing store file: `none` when `property_data_full.csv` does not
exist, otherwise the list of rows it holds. -/
abbrev CsvFile := List Row

/-- src/main.py lines 24-31: the fixed 22-column header. -/
def CSV_HEADERS : List String :=
  ["Timestamp", "URL",
   "Agent Name", "Agent Phone", "Agency Name", "Agent License",
   "Title", "Price", "Address", "District",
   "Property Type", "Tenure", "Built Year", "Developer",
   "Bedrooms", "Bathrooms", "Size (sqft)", "Price per sqft",
   "Furnishing", "Floor Level", "Facilities", "Description Summary"]

/-- The header row as written by `csv.writer.writerow(CSV_HEADERS)`. -/
def headerRow : Row := CSV_HEADERS.map Json.str

/-- src/main.py lines 46-57, `init_csv`: creates the CSV file with the
header row if it does not exist; a `PermissionError` during creation is
caught and only logged.  `perm` is true when the process may create the
file. -/
def init_csv (perm : Bool) (fs : Option CsvFile) : Option CsvFile :=
  match fs with
  | some f => some f
  | none => if perm then some [headerRow] else none

/-- Python `data.get(key, default)`: field lookup on a dict; any non-dict
value (list, string, number, bool, None) raises `AttributeError`. -/
def pyGet (data : Json) (key : String) (dflt : Json) : Except PyErr Json :=
  match data with
  | .obj kvs => .ok ((kvs.lookup key).getD dflt)
  | _ => .error .attributeError

/-- src/main.py lines 63-86: the `row_data` list, one `data.get` per schema
field with default "N/A", prefixed by the timestamp and the URL.  Fails
with the `AttributeError` Python raises when `data` is not a dict. -/
def buildRow (data : Json) (url ts : String) : Except PyErr Row := do
  let agent_name ← pyGet data "agent_name" (.str "N/A")
  let agent_phone ← pyGet data "agent_phone" (.str "N/A")
  let agency_name ← pyGet data "agency_name" (.str "N/A")
  let agent_license ← pyGet data "agent_license" (.str "N/A")
  let title ← pyGet data "title" (.str "N/A")
  let price ← pyGet data "price" (.str "N/A")
  let address ← pyGet data "address" (.str "N/A")
  let district ← pyGet data "district" (.str "N/A")
  let property_type ← pyGet data "property_type" (.str "N/A")
  let tenure ← pyGet data "tenure" (.str "N/A")
  let built_year ← pyGet data "built_year" (.str "N/A")
  let developer ← pyGet data "developer" (.str "N/A")
  let bedrooms ← pyGet data "bedrooms" (.str "N/A")
  let bathrooms ← pyGet data "bathrooms" (.str "N/A")
  let size_sqft ← pyGet data "size_sqft" (.str "N/A")
  let psf ← pyGet data "psf" (.str "N/A")
  let furnishing ← pyGet data "furnishing" (.str "N/A")
  let floor_level ← pyGet data "floor_level" (.str "N/A")
  let facilities ← pyGet data "facilities" (.str "N/A")
  let description_summary ← pyGet data "description_summary" (.str "N/A")
  pure ([.str ts, .str url,
         agent_name, agent_phone, agency_name, agent_license,
         title, price, address, district,
         property_type, tenure, built_year, developer,
         bedrooms, bathrooms, size_sqft, psf,
         furnishing, floor_level, facilities, description_summary])

/-- src/main.py lines 59-98, `save_to_csv`: calls `init_csv`, builds the
row, opens the file in append mode and writes the row.  A
`PermissionError` on the append (`lockErr = true`, e.g. the file is held
open exclusively by Excel) and any other exception (e.g. the
`AttributeError` from `data.get` on a non-dict) are caught and only
logged, so the function always returns normally.  `open(mode='a')`
creates a missing file, hence the `none` fallback after `init_csv`. -/
def save_to_csv (data : Json) (url ts : String) (perm lockErr : Bool)
    (fs : Option CsvFile) : Option CsvFile :=
  let fs1 := init_csv perm fs
  match buildRow data url ts with
  | .error _ => fs1
  | .ok row =>
      if lockErr then fs1
      else match fs1 with
        | some rows => some (rows ++ [row])
        | none => some [row]

/-- The 20 schema keys, in the order `save_to_csv` reads them (they are
also the "Required Keys" of the prompt, src/main.py lines 199-204). -/
def schemaKeys : List String :=
  ["agent_name", "agent_phone", "agency_name", "agent_license",
   "title", "price", "address", "district",
   "property_type", "tenure", "built_year", "developer",
   "bedrooms", "bathrooms", "size_sqft", "psf",
   "furnishing", "floor_level", "facilities", "description_summary"]

/-! ### Python string primitives

Character-list implementations of the Python string operations the source
uses (`in`, `.lower()`, `.strip()`, `.replace()`, slicing); the inputs in
this program are ASCII, where these agree with Python's Unicode-aware
versions. -/

/-- Python `s.lower()` (ASCII case fold). -/
def pyLower (s : String) : String := String.mk (s.data.map Char.toLower)

/-- Python `s.strip()`: drop leading and trailing whitespace. -/
def pyStrip (s : String) : String :=
  String.mk (((s.data.dropWhile Char.isWhitespace).reverse.dropWhile
    Char.isWhitespace).reverse)

/-- Does `pat` occur as a contiguous run inside `l`? -/
def containsSubAux (pat : List Char) : List Char → Bool
  | [] => pat.isEmpty
  | c :: rest => pat.isPrefixOf (c :: rest) || containsSubAux pat rest

/-- Python `pat in s` on strings. -/
def containsSubstr (s pat : String) : Bool := containsSubAux pat.data s.data

/-- Python `s.replace(pat, repl)` on character lists: replace the
non-overlapping occurrences of `pat`, left to right.  `fuel` (initially
the list length, always an upper bound on it) makes the recursion
structural. -/
def pyReplaceAux (pat repl : List Char) : Nat → List Char → List Char
  | 0, l => l
  | _, [] => []
  | fuel + 1, c :: rest =>
      if pat ≠ [] && pat.isPrefixOf (c :: rest) then
        repl ++ pyReplaceAux pat repl fuel (rest.drop (pat.length - 1))
      else c :: pyReplaceAux pat repl fuel rest

/-- Python `s.replace(pat, repl)` (for non-empty `pat`). -/
def pyReplace (s pat repl : String) : String :=
  String.mk (pyReplaceAux pat.data repl.data s.data.length s.data)

/-- Python string slicing `s[:n]`: the first `n` characters. -/
def strTake (s : String) (n : Nat) : String := String.mk (s.data.take n)

/-! ### Quota-aware LLM invoker -/

/-- src/main.py line 130: `"429" in str(e) or "quota" in str(e).lower()`. -/
def isQuotaError (e : String) : Bool :=
  containsSubstr e "429" || containsSubstr (pyLower e) "quota"

/-- Observable outcome of `safe_generate_content`: the returned value or
raised error, how many times `model.generate_content` was invoked, and the
`time.sleep` durations performed, in order. -/
structure GenResult where
  result : Except String String
  calls : Nat
  waits : List Nat

/-- The `for attempt in range(len(wait_times))` loop of
`safe_generate_content` (src/main.py lines 126-135): `gen n` is the n-th
invocation of `model.generate_content(prompt)`.  On a quota error the
current wait is slept and the loop continues; any other error is re-raised
at once; an exhausted loop raises the fixed quota-exceeded message. -/
def safeGenLoop (gen : Nat → Except String String) :
    Nat → List Nat → List Nat → GenResult
  | attempt, [], waited =>
      ⟨.error "Failed to get response from Gemini (Quota Exceeded).", attempt, waited⟩
  | attempt, w :: rest, waited =>
      match gen attempt with
      | .ok r => ⟨.ok r, attempt + 1, waited⟩
      | .error e =>
          if isQuotaError e then safeGenLoop gen (attempt + 1) rest (waited ++ [w])
          else ⟨.error e, attempt + 1, waited⟩

/-- src/main.py lines 120-136, `safe_generate_content` with
`wait_times = [5, 30]`. -/
def safe_generate_content (gen : Nat → Except String String) : GenResult :=
  safeGenLoop gen 0 [5, 30] []

/-! ### HTML compressor -/

/-- A parsed DOM node as BeautifulSoup exposes it: an element with a tag
name and children, or a text node (`NavigableString`). -/
inductive Dom where
  | text (s : String) : Dom
  | elem (tag : String) (children : List Dom) : Dom

/-- src/main.py line 108: the tags removed by the first `decompose` pass. -/
def junkTags : List String :=
  ["script", "style", "svg", "noscript", "iframe", "meta", "link",
   "input", "button", "img", "video", "source", "picture"]

/-- src/main.py line 113: the tags removed by the second `decompose` pass. -/
def bloatTags : List String := ["header", "footer", "nav", "aside", "form"]

mutual
/-- One `decompose` pass: `none` when this node's subtree is removed. -/
def pruneDom (banned : List String) : Dom → Option Dom
  | .text s => some (.text s)
  | .elem t cs => if t ∈ banned then none else some (.elem t (pruneList banned cs))

/-- The pass `pruneDom` applied over a list of sibling nodes. -/
def pruneList (banned : List String) : List Dom → List Dom
  | [] => []
  | d :: ds =>
      match pruneDom banned d with
      | none => pruneList banned ds
      | some d' => d' :: pruneList banned ds
end

mutual
/-- The text nodes of a subtree, in document order (what
`get_text` concatenates). -/
def collectTexts : Dom → List String
  | .text s => [s]
  | .elem _ cs => collectTextsList cs

/-- The collector `collectTexts` applied over a list of sibling nodes. -/
def collectTextsList : List Dom → List String
  | [] => []
  | d :: ds => collectTexts d ++ collectTextsList ds
end

mutual
/-- The text nodes of a subtree that do NOT sit inside any element whose
tag is in `banned` (the texts a `decompose` of the banned tags keeps). -/
def textsOutside (banned : List String) : Dom → List String
  | .text s => [s]
  | .elem t cs => if t ∈ banned then [] else textsOutsideList banned cs

/-- The collector `textsOutside` applied over a list of sibling nodes. -/
def textsOutsideList (banned : List String) : List Dom → List String
  | [] => []
  | d :: ds => textsOutside banned d ++ textsOutsideList banned ds
end

/-- BeautifulSoup `get_text(separator=' ', strip=True)` on the document's
node list: each text node stripped, whitespace-only nodes dropped, the
rest joined with single spaces. -/
def getTextList (ds : List Dom) : String :=
  String.intercalate " " (((collectTextsList ds).map pyStrip).filter (· ≠ ""))

/-- src/main.py lines 100-118, `clean_html`.  `parse` is
`BeautifulSoup(·, 'html.parser')`, returning the document's top-level
node list; it is a parameter because the HTML parser is an external
library.  `raw = none` models `raw_html = None`; Python's `if not
raw_html` also catches the empty string.  Two decompose passes, then
`get_text` and the 25,000-character cap. -/
def clean_html (parse : String → List Dom) (raw : Option String) : String :=
  match raw with
  | none => ""
  | some s =>
      if s = "" then ""
      else strTake (getTextList (pruneList bloatTags (pruneList junkTags (parse s)))) 25000

/-! ### Reveal-click heuristic -/

/-- A live page element as returned by `driver.find_elements`: its tag
name and whether the injected click raises (e.g. stale element). -/
structure Element where
  tag : String
  clickRaises : Bool
deriving DecidableEq

/-- What the click loop did to one element. -/
inductive ClickAction where
  | clicked (el : Element) : ClickAction
  | clickFailed (el : Element) : ClickAction
deriving DecidableEq

/-- src/main.py lines 179-184, the inner `for el in elements` loop:
hyperlink elements are skipped (`continue`), every other element gets
`execute_script("arguments[0].click();", el)`; a click failure is
swallowed by the bare `except: pass` and iteration continues. -/
def processElems : List Element → List ClickAction
  | [] => []
  | el :: rest =>
      if pyLower el.tag = "a" then processElems rest
      else (if el.clickRaises then ClickAction.clickFailed el
            else ClickAction.clicked el) :: processElems rest

/-- src/main.py line 175: the trigger phrases. -/
def keywords : List String :=
  ["Show Number", "View", "Call", "Contact", "WhatsApp"]

/-- src/main.py lines 175-185, the whole reveal-click pass: for each
keyword, find the elements whose text contains it and run the click loop.
`find` is `driver.find_elements(By.XPATH, ...)`. -/
def revealClicks (find : String → List Element) : List ClickAction :=
  keywords.flatMap (fun k => processElems (find k))

/-! ### Extraction prompter -/

/-- src/main.py lines 195-210: the extraction prompt with the compressed
text spliced in. -/
def buildPrompt (cleanedText : String) : String :=
  "\n        Extract real estate parameters from this text into JSON.\n" ++
  "        If a value is missing, use \"N/A\".\n\n" ++
  "        Required Keys:\n" ++
  "        agent_name, agent_phone, agency_name, agent_license,\n" ++
  "        title, price, address, district,\n" ++
  "        property_type, tenure, built_year, developer,\n" ++
  "        bedrooms, bathrooms, size_sqft, psf,\n" ++
  "        furnishing, floor_level, facilities, description_summary\n\n" ++
  "        Text:\n        " ++ cleanedText ++ "\n        \n" ++
  "        Return JSON only.\n        "

/-- src/main.py line 215: strip Markdown code fences from the model's
text, then trim. -/
def stripFences (s : String) : String :=
  pyStrip (pyReplace (pyReplace s "```json" "") "```" "")

/-! ### Session orchestrator -/

/-- The world `scrape_current` interacts with: the live page (URL, DOM
source, elements), the wall clock, the HTML and JSON parsers, the model,
and the two failure switches of the record store. -/
structure ScrapeEnv where
  url : String
  ts : String
  pageSource : String
  parse : String → List Dom
  find : String → List Element
  gen : String → Nat → Except String String
  parseJson : String → Except String Json
  perm : Bool
  lockErr : Bool

/-- The HTTP-level outcome of `POST /scrape-current-page`: an
`HTTPException(status_code, detail)` or the success payload
`{"status": "success", "data": data}`. -/
inductive ScrapeResp where
  | httpError (code : Nat) (detail : String) : ScrapeResp
  | success (data : Json) : ScrapeResp

/-- Everything observable about one `scrape_current` request. -/
structure ScrapeOutcome where
  resp : ScrapeResp
  fs : Option CsvFile
  clicks : List ClickAction

/-- src/main.py lines 165-225, `scrape_current`: precondition check on the
session handle, reveal-click pass, capture (URL + `clean_html` of the page
source), prompt, `safe_generate_content`, fence-stripping + `json.loads`,
`save_to_csv`, success payload.  Any exception inside the `try` block
becomes `HTTPException(500, str(e))` and leaves the store untouched;
`save_to_csv` itself never raises. -/
def scrape_current (driver : Option Unit) (env : ScrapeEnv)
    (fs : Option CsvFile) : ScrapeOutcome :=
  match driver with
  | none => ⟨.httpError 400 "Browser not open.", fs, []⟩
  | some _ =>
      let clicks := revealClicks env.find
      let cleaned := clean_html env.parse (some env.pageSource)
      let prompt := buildPrompt cleaned
      match (safe_generate_content (env.gen prompt)).result with
      | .error e => ⟨.httpError 500 e, fs, clicks⟩
      | .ok text =>
          match env.parseJson (stripFences text) with
          | .error e => ⟨.httpError 500 e, fs, clicks⟩
          | .ok data =>
              ⟨.success data, save_to_csv data env.url env.ts env.perm env.lockErr fs, clicks⟩

/-! ### Helper observers and lemmas -/

/-- The element a click action was invoked on. -/
def elOf : ClickAction → Element
  | .clicked el => el
  | .clickFailed el => el

theorem strTake_length_le (s : String) (n : Nat) : (strTake s n).length ≤ n := by
  show (s.data.take n).length ≤ n
  rw [List.length_take]
  exact min_le_left _ _

theorem init_csv_pair (perm : Bool) (fs : Option CsvFile) :
    init_csv perm (init_csv perm fs) = init_csv perm fs := by
  cases fs with
  | some f => rfl
  | none =>
      cases perm with
      | true => rfl
      | false => rfl

/-! ### Claims -/

/-- C5: calling extract-current-page when no live session handle exists
fails immediately with the 400 "Browser not open." precondition error,
the record store is unchanged, and no click (or any other action) is
performed. -/
theorem c5_no_session_precondition (env : ScrapeEnv) (fs : Option CsvFile) :
    scrape_current none env fs = ⟨.httpError 400 "Browser not open.", fs, []⟩ := rfl

/-- C6: the HTML compressor's output has length at most 25,000 characters
for every input (and every behaviour of the external HTML parser), and on
a non-empty input it is exactly the truncation of the collapsed text to
its first 25,000 characters. -/
theorem c6_output_capped (parse : String → List Dom) :
    (∀ raw : Option String, (clean_html parse raw).length ≤ 25000) ∧
    (∀ s : String, clean_html parse (some s) =
      if s = "" then ""
      else strTake (getTextList (pruneList bloatTags (pruneList junkTags (parse s)))) 25000) := by
  constructor
  · intro raw
    match raw with
    | none => exact Nat.zero_le 25000
    | some s =>
        by_cases hs : s = ""
        · rw [hs]; exact Nat.zero_le 25000
        · simp only [clean_html, hs, if_false]
          exact strTake_length_le _ _
  · intro s
    by_cases hs : s = "" <;> simp [clean_html, hs]

/-- C9: store initialization is idempotent: an absent file is created
holding exactly the fixed header row (when the process may create it), an
existing file is never touched, and any positive number of calls has the
same effect as one call. -/
theorem c9_init_idempotent (perm : Bool) (fs : Option CsvFile) :
    init_csv perm (init_csv perm fs) = init_csv perm fs ∧
    (∀ f : CsvFile, init_csv perm (some f) = some f) ∧
    init_csv true none = some [headerRow] ∧
    (∀ n : Nat, (init_csv perm)^[n + 1] fs = init_csv perm fs) := by
  refine ⟨init_csv_pair perm fs, fun f => rfl, rfl, ?_⟩
  intro n
  induction n generalizing fs with
  | zero => rfl
  | succ m ih =>
      rw [Function.iterate_succ_apply]
      exact (ih (init_csv perm fs)).trans (init_csv_pair perm fs)

/-- C3: a provider failure whose text contains neither "429" nor "quota"
(case-insensitively) propagates from the first invocation: one call, no
sleep, the underlying error unchanged. -/
theorem c3_nonquota_propagates (gen : Nat → Except String String) (e : String)
    (h0 : gen 0 = .error e) (hq : isQuotaError e = false) :
    safe_generate_content gen = ⟨.error e, 1, []⟩ := by
  simp [safe_generate_content, safeGenLoop, h0, hq]

/-- Witness for C3 at a concrete network error. -/
theorem c3_witness :
    safe_generate_content (fun _ => .error "connection reset by peer") =
      ⟨.error "connection reset by peer", 1, []⟩ :=
  c3_nonquota_propagates (fun _ => .error "connection reset by peer")
    "connection reset by peer" rfl (by decide)

/-- C2 counterexample: with the model failing on every invocation with a
quota error, the invoker calls it only 2 times — the first attempt plus
ONE retry, not the two retries the claim states (2 retries would mean 3
calls).  The 30-second sleep does happen, but no further invocation
follows it. -/
theorem c2_counterexample :
    (safe_generate_content
      (fun _ => .error "429 Resource has been exhausted (e.g. check quota).")).calls = 2 ∧
    ¬ (safe_generate_content
      (fun _ => .error "429 Resource has been exhausted (e.g. check quota).")).calls = 1 + 2 := by
  constructor
  · rfl
  · decide

/-- C2 (amended): if the first invocation and the single retry both fail
with quota errors, the invoker performs exactly one retry after the first
failure (two invocations in total), sleeps 5 seconds before that retry and
a further 30 seconds after its failure, and then raises the distinct fixed
"Quota Exceeded" message in place of the provider errors. -/
theorem c2_quota_retry_schedule (gen : Nat → Except String String) (e0 e1 : String)
    (h0 : gen 0 = .error e0) (hq0 : isQuotaError e0 = true)
    (h1 : gen 1 = .error e1) (hq1 : isQuotaError e1 = true) :
    safe_generate_content gen =
      ⟨.error "Failed to get response from Gemini (Quota Exceeded).", 2, [5, 30]⟩ := by
  simp [safe_generate_content, safeGenLoop, h0, hq0, h1, hq1]

/-- Witness for C2 (amended) at a concrete always-quota model. -/
theorem c2_witness :
    safe_generate_content (fun _ => .error "429 quota exhausted") =
      ⟨.error "Failed to get response from Gemini (Quota Exceeded).", 2, [5, 30]⟩ :=
  c2_quota_retry_schedule (fun _ => .error "429 quota exhausted")
    "429 quota exhausted" "429 quota exhausted" rfl (by decide) rfl (by decide)

/-- C1 counterexample: the extraction map with every schema key absent
yields a row of 22 values — timestamp, URL and 20 "N/A" fields — whereas
the claim's count (timestamp, URL and 21 fields) would be 23. -/
theorem c1_counterexample :
    ((buildRow (Json.obj []) "url" "ts").toOption.map List.length = some 22) ∧
    ¬ (22 : Nat) = 2 + 21 := by
  constructor
  · rfl
  · decide

/-- C1 (amended): appending an extraction map writes one row holding the
timestamp, the source URL and then exactly 20 field values — one per
schema key, in the fixed order, the map's value where the key is present
and "N/A" where it is absent — matching the fixed 22-column header. -/
theorem c1_row_contents (kvs : List (String × Json)) (url ts : String)
    (perm : Bool) (rows : CsvFile) :
    save_to_csv (.obj kvs) url ts perm false (some rows) =
      some (rows ++ [Json.str ts :: Json.str url ::
        schemaKeys.map (fun k => (kvs.lookup k).getD (Json.str "N/A"))]) ∧
    (schemaKeys.map (fun k => (kvs.lookup k).getD (Json.str "N/A"))).length = 20 ∧
    CSV_HEADERS.length = 22 := by
  refine ⟨?_, by simp [schemaKeys], by decide⟩
  simp [save_to_csv, init_csv, buildRow, pyGet, schemaKeys, bind, Except.bind,
    pure, Except.pure]

theorem processElems_no_link (els : List Element) (a : ClickAction)
    (ha : a ∈ processElems els) : pyLower ((elOf a).tag) ≠ "a" := by
  induction els with
  | nil => cases ha
  | cons el rest ih =>
      by_cases htag : pyLower el.tag = "a"
      · rw [processElems, if_pos htag] at ha
        exact ih ha
      · rw [processElems, if_neg htag] at ha
        rcases List.mem_cons.mp ha with heq | hrest
        · cases hcl : el.clickRaises <;> rw [hcl] at heq <;> simp [heq, elOf, htag]
        · exact ih hrest

/-- C8: during the reveal-click pass, a synthetic click (successful or
failing) is never invoked on an element whose tag name lowercases to "a";
such elements are skipped while the loop continues over the remaining
matches. -/
theorem c8_never_clicks_links (find : String → List Element) (a : ClickAction)
    (ha : a ∈ revealClicks find) : pyLower ((elOf a).tag) ≠ "a" := by
  unfold revealClicks at ha
  rcases List.mem_flatMap.mp ha with ⟨k, _, hmem⟩
  exact processElems_no_link _ a hmem

/-- Witness for C8: a page with one hyperlink and one button matching
"View"; the button's click is in the action list and its tag is not a
hyperlink tag. -/
theorem c8_witness :
    (ClickAction.clicked ⟨"BUTTON", false⟩ ∈
      revealClicks (fun k => if k = "View"
        then [⟨"A", false⟩, ⟨"BUTTON", false⟩] else [])) ∧
    pyLower ((elOf (ClickAction.clicked ⟨"BUTTON", false⟩)).tag) ≠ "a" :=
  ⟨by decide,
   c8_never_clicks_links
     (fun k => if k = "View" then [⟨"A", false⟩, ⟨"BUTTON", false⟩] else [])
     (ClickAction.clicked ⟨"BUTTON", false⟩) (by decide)⟩

/-- C4: when the append to the backing store fails (the file is
exclusively locked, `lockErr = true`), the failure does not propagate:
extract-current-page still returns the parsed extraction result with
success status. -/
theorem c4_persistence_nonfatal (env : ScrapeEnv) (fs : Option CsvFile)
    (text : String) (data : Json)
    (_hlock : env.lockErr = true)
    (hgen : (safe_generate_content
      (env.gen (buildPrompt (clean_html env.parse (some env.pageSource))))).result = .ok text)
    (hjson : env.parseJson (stripFences text) = .ok data) :
    (scrape_current (some ()) env fs).resp = .success data := by
  simp only [scrape_current, hgen, hjson]

/-- Witness for C4: a locked store, a model answering a JSON object. -/
theorem c4_witness :
    (scrape_current (some ())
      ⟨"u", "t", "", fun _ => [], fun _ => [], fun _ _ => .ok "x",
       fun _ => .ok (Json.obj [("agent_name", Json.str "Jane Tan")]), true, true⟩
      (some [])).resp = .success (Json.obj [("agent_name", Json.str "Jane Tan")]) :=
  c4_persistence_nonfatal
    ⟨"u", "t", "", fun _ => [], fun _ => [], fun _ _ => .ok "x",
     fun _ => .ok (Json.obj [("agent_name", Json.str "Jane Tan")]), true, true⟩
    (some []) "x" (Json.obj [("agent_name", Json.str "Jane Tan")]) rfl rfl rfl

theorem buildRow_not_obj (data : Json) (url ts : String)
    (hno : ∀ kvs, data ≠ .obj kvs) : buildRow data url ts = .error .attributeError := by
  cases data with
  | obj kvs => exact absurd rfl (hno kvs)
  | null => rfl
  | bool b => rfl
  | num n => rfl
  | str s => rfl
  | arr elems => rfl

/-- C10: `save_to_csv` is total — when the parsed JSON value is not a
key/value map (a JSON array, string, number, bool or null), the
`AttributeError` from `data.get` is swallowed, no row is appended to an
existing store, and the extraction endpoint still reports success with
that value as the data. -/
theorem c10_success_without_row (env : ScrapeEnv) (rows : CsvFile)
    (text : String) (data : Json)
    (hgen : (safe_generate_content
      (env.gen (buildPrompt (clean_html env.parse (some env.pageSource))))).result = .ok text)
    (hjson : env.parseJson (stripFences text) = .ok data)
    (hno : ∀ kvs, data ≠ .obj kvs) :
    scrape_current (some ()) env (some rows) =
      ⟨.success data, some rows, revealClicks env.find⟩ := by
  simp only [scrape_current, hgen, hjson]
  simp [save_to_csv, init_csv, buildRow_not_obj data env.url env.ts hno]

/-- Witness for C10: the model answers a JSON array; the request succeeds
and the store keeps exactly its previous rows. -/
theorem c10_witness :
    scrape_current (some ())
      ⟨"u", "t", "", fun _ => [], fun _ => [], fun _ _ => .ok "x",
       fun _ => .ok (Json.arr [Json.num 1]), true, false⟩
      (some [[Json.str "old"]]) =
      ⟨.success (Json.arr [Json.num 1]), some [[Json.str "old"]], []⟩ := by
  have h := c10_success_without_row
    ⟨"u", "t", "", fun _ => [], fun _ => [], fun _ _ => .ok "x",
     fun _ => .ok (Json.arr [Json.num 1]), true, false⟩
    [[Json.str "old"]] "x" (Json.arr [Json.num 1]) rfl rfl
    (fun kvs h => by cases h)
  exact h

mutual
theorem domInd (P : Dom → Prop) (Q : List Dom → Prop)
    (htext : ∀ s, P (.text s))
    (helem : ∀ t cs, Q cs → P (.elem t cs))
    (hnil : Q [])
    (hcons : ∀ d ds, P d → Q ds → Q (d :: ds)) :
    ∀ d : Dom, P d
  | .text s => htext s
  | .elem t cs => helem t cs (domIndList P Q htext helem hnil hcons cs)

theorem domIndList (P : Dom → Prop) (Q : List Dom → Prop)
    (htext : ∀ s, P (.text s))
    (helem : ∀ t cs, Q cs → P (.elem t cs))
    (hnil : Q [])
    (hcons : ∀ d ds, P d → Q ds → Q (d :: ds)) :
    ∀ ds : List Dom, Q ds
  | [] => hnil
  | d :: ds => hcons d ds (domInd P Q htext helem hnil hcons d)
      (domIndList P Q htext helem hnil hcons ds)
end

/-- Texts that survive a `decompose` pass sit outside the pruned tags: a
text node reachable after `pruneList b`, and outside the `c`-tagged
elements of the pruned forest, is outside both tag sets in the original
forest. -/
theorem pruneList_textsOutside (b c : List String) :
    ∀ ds : List Dom, ∀ t, t ∈ textsOutsideList c (pruneList b ds) →
      t ∈ textsOutsideList (b ++ c) ds := by
  refine domIndList
    (fun d => ∀ d', pruneDom b d = some d' →
      ∀ t, t ∈ textsOutside c d' → t ∈ textsOutside (b ++ c) d)
    (fun ds => ∀ t, t ∈ textsOutsideList c (pruneList b ds) →
      t ∈ textsOutsideList (b ++ c) ds) ?_ ?_ ?_ ?_
  · intro s d' h t ht
    simp only [pruneDom, Option.some.injEq] at h
    subst h
    simpa [textsOutside] using ht
  · intro tg cs ih d' h t ht
    by_cases htb : tg ∈ b
    · simp [pruneDom, htb] at h
    · simp only [pruneDom, htb, if_neg, ite_false, Option.some.injEq] at h
      subst h
      by_cases htc : tg ∈ c
      · simp [textsOutside, htc] at ht
      · simp only [textsOutside, htc, ite_false] at ht
        have hnot : tg ∉ b ++ c := by
          simp [List.mem_append, htb, htc]
        simp only [textsOutside, hnot, ite_false]
        exact ih t ht
  · intro t ht
    simp [pruneList, textsOutsideList] at ht
  · intro d ds hP hQ t ht
    cases hpd : pruneDom b d with
    | none =>
        rw [pruneList, hpd] at ht
        simp only [textsOutsideList, List.mem_append]
        exact Or.inr (hQ t ht)
    | some d' =>
        rw [pruneList, hpd] at ht
        simp only [textsOutsideList, List.mem_append] at ht ⊢
        rcases ht with h1 | h2
        · exact Or.inl (hP d' hpd t h1)
        · exact Or.inr (hQ t h2)

/-- The function `get_text` collects exactly the texts outside an empty banned set. -/
theorem collectTexts_eq_outside_nil :
    ∀ ds : List Dom, collectTextsList ds = textsOutsideList [] ds := by
  refine domIndList
    (fun d => collectTexts d = textsOutside [] d)
    (fun ds => collectTextsList ds = textsOutsideList [] ds) ?_ ?_ ?_ ?_
  · intro s; rfl
  · intro tg cs ih
    simp [collectTexts, textsOutside, ih]
  · rfl
  · intro d ds hP hQ
    simp [collectTextsList, textsOutsideList, hP, hQ]

/-- Shrinking the banned tag set keeps every collected text. -/
theorem textsOutside_anti (small big : List String)
    (hsub : ∀ x, x ∈ small → x ∈ big) :
    ∀ ds : List Dom, ∀ t, t ∈ textsOutsideList big ds →
      t ∈ textsOutsideList small ds := by
  refine domIndList
    (fun d => ∀ t, t ∈ textsOutside big d → t ∈ textsOutside small d)
    (fun ds => ∀ t, t ∈ textsOutsideList big ds → t ∈ textsOutsideList small ds)
    ?_ ?_ ?_ ?_
  · intro s t ht; exact ht
  · intro tg cs ih t ht
    by_cases hbig : tg ∈ big
    · simp [textsOutside, hbig] at ht
    · have hsmall : tg ∉ small := fun hx => hbig (hsub tg hx)
      simp only [textsOutside, hbig, ite_false] at ht
      simp only [textsOutside, hsmall, ite_false]
      exact ih t ht
  · intro t ht; exact ht
  · intro d ds hP hQ t ht
    simp only [textsOutsideList, List.mem_append] at ht ⊢
    rcases ht with h1 | h2
    · exact Or.inl (hP t h1)
    · exact Or.inr (hQ t h2)

/-- C7: the compressor never emits a text node that sits inside a script,
style, nav or footer subtree — every text node surviving the two
decompose passes lies outside all four tag kinds in the parsed document —
and empty or `None` input yields empty output with no parse attempted. -/
theorem c7_banned_subtrees (parse : String → List Dom) :
    clean_html parse none = "" ∧ clean_html parse (some "") = "" ∧
    ∀ s : String, s ≠ "" →
      clean_html parse (some s) =
        strTake (getTextList (pruneList bloatTags (pruneList junkTags (parse s)))) 25000 ∧
      ∀ t, t ∈ collectTextsList (pruneList bloatTags (pruneList junkTags (parse s))) →
        t ∈ textsOutsideList ["script", "style", "nav", "footer"] (parse s) := by
  refine ⟨rfl, rfl, ?_⟩
  intro s hs
  constructor
  · simp [clean_html, hs]
  · intro t ht
    rw [collectTexts_eq_outside_nil] at ht
    have h1 := pruneList_textsOutside bloatTags [] (pruneList junkTags (parse s)) t ht
    have h2 := pruneList_textsOutside junkTags (bloatTags ++ []) (parse s) t h1
    refine textsOutside_anti _ (junkTags ++ (bloatTags ++ [])) ?_ (parse s) t h2
    intro x hx
    simp only [List.mem_cons, List.not_mem_nil, or_false] at hx
    rcases hx with h | h | h | h <;> subst h <;> decide

/-- Witness for C7: a parse with one kept `div` text node and one
`script` text node; the kept node's text is outside all banned tags. -/
theorem c7_witness :
    (("x" : String) ≠ "" ∧
     "keep" ∈ collectTextsList (pruneList bloatTags (pruneList junkTags
       ((fun _ => [Dom.elem "div" [Dom.text "keep"],
                   Dom.elem "script" [Dom.text "junk"]]) "x")))) ∧
    "keep" ∈ textsOutsideList ["script", "style", "nav", "footer"]
      ((fun _ => [Dom.elem "div" [Dom.text "keep"],
                  Dom.elem "script" [Dom.text "junk"]]) "x") :=
  ⟨⟨by decide, by decide⟩,
   ((c7_banned_subtrees
       (fun _ => [Dom.elem "div" [Dom.text "keep"],
                  Dom.elem "script" [Dom.text "junk"]])).2.2 "x" (by decide)).2
     "keep" (by decide)⟩
